import Mathlib

/-!
Shallow embedding of the dynamic-dispatch and ownership core of
`src/dynamic.hpp` (fat pointers, type-erased dynamic pointers, the
shared/weak control block) together with a model of the compile-time
conversion constraints.  Addresses are modelled as natural numbers,
machine pointers as `Option Addr` (`none` = `nullptr`), and the
per-concrete-type composite vtable as a single value (the C++ code
stores one static `vtable` object per concrete type and every
`ivtable` pointer extracted from it is an upcast of the same object).
-/

abbrev Addr := Nat

/- §1  Method slots and detail::bind_dyn -/

/-- Model of a vtable entry.  A `dyn_method` whose first parameter is a
`basic_obj_ptr` is a non-static method (`nonstaticM`); every other entry
(static `dyn_method`s and plain members) is returned by `bind_dyn`
unchanged and is modelled as `staticM`.  Method payloads are modelled as
functions on `Nat`. -/
inductive DynSlot where
  | staticM (f : Nat → Nat)
  | nonstaticM (f : Addr → Nat → Nat)

/-- Result of `detail::bind_dyn`: either the vtable entry itself, or a
`bound_dyn_method` proxy whose `obj_ptr` field has been pre-filled with
the pointer stored in the fat/dynamic pointer. -/
inductive BoundSlot where
  | plain (f : Nat → Nat)
  | bound (optr : Option Addr) (f : Addr → Nat → Nat)

/-- detail::bind_dyn: non-static `dyn_method`s are wrapped in a
`bound_dyn_method{optr, +dyn}`; everything else is returned as is. -/
def bind_dyn (optr : Option Addr) : DynSlot → BoundSlot
  | DynSlot.staticM f => BoundSlot.plain f
  | DynSlot.nonstaticM f => BoundSlot.bound optr f

/-- Calling the entry returned by `operator[]`.  Invoking a bound method
through a null object pointer is undefined behaviour, modelled as
`none`. -/
def BoundSlot.call : BoundSlot → Nat → Option Nat
  | BoundSlot.plain f, x => some (f x)
  | BoundSlot.bound (some a) f, x => some (f a x)
  | BoundSlot.bound none _, _ => none

/- §2  Composite vtable (`vtable<Is...>` with its `ivtable<I>` views) -/

/-- Composite table of a concrete type: the interface method entries
(indexed by interface id and slot id), plus the destruction metadata
every `ivtable` view carries (`dtor`, `size`, `arr_deleter`).  The
destructor and array deleter are modelled as opaque labels used in
event traces. -/
structure VTable where
  islots : Nat → Nat → DynSlot
  dtor : Nat
  size : Nat
  arrDeleter : Nat

/-- Placeholder table used as the default of partial lookups (never
reached under the compile-time constraints that the theorems carry as
hypotheses). -/
def vtable0 : VTable :=
  { islots := fun _ _ => DynSlot.staticM id, dtor := 0, size := 0, arrDeleter := 0 }

/-- A concrete implementer type `T`: the list of interface ids it
declares (`T::interfaces`) and its statically stored composite table
(`T::vtable()`). -/
structure ConcreteM where
  ifaceIds : List Nat
  vt : VTable

/- §3  Fat pointer (`fptr<T>`) -/

/-- fptr<T>: `(T* obj_, const vtable_type* vtable_)`. -/
structure FptrM where
  obj : Option Addr
  vtable : Option VTable

/-- fptr's `fptr(std::nullptr_t)` constructor. -/
def fptr_null : FptrM := ⟨none, none⟩

/-- fptr's defaulted default constructor.  The members `obj_` and
`vtable_` have no default member initializers, so a default-constructed
`fptr` holds indeterminate values; the junk arguments model those. -/
def fptr_default (junkObj : Option Addr) (junkVt : Option VTable) : FptrM :=
  ⟨junkObj, junkVt⟩

/-- implements::operator&: `{addressof(self), addressof(self.vtable())}`. -/
def fptr_of (a : Addr) (T : ConcreteM) : FptrM := ⟨some a, some T.vt⟩

/-- fptr's converting constructor `fptr(const fptr<U>&)` for
`U` derived from `T`: copies both members unchanged. -/
def fptr_convert (f : FptrM) : FptrM := ⟨f.obj, f.vtable⟩

/-- fptr::operator[]: `bind_dyn(obj_, vtable_->*mptr)`.  Reading through
a null vtable pointer would be undefined, hence the `Option`. -/
def fptr_index (f : FptrM) (iface slot : Nat) : Option BoundSlot :=
  f.vtable.map (fun vt => bind_dyn f.obj (vt.islots iface slot))

/-- Typing environment: the composite table returned by the `vtable()`
accessor of the object living at a given address (if any). -/
def FptrEnv := Addr → Option VTable

/-- Invariant claimed for `fptr` values: both fields null together, or
both non-null with the table pointer equal to the pointee's own
accessor result. -/
def fptr_inv (env : FptrEnv) (f : FptrM) : Prop :=
  (f.obj = none ∧ f.vtable = none) ∨
  (∃ a t, f.obj = some a ∧ f.vtable = some t ∧ env a = some t)

/- §4  Dynamic pointer core (`dptr<I, Is...>`) -/

/-- Compile-time ownership category of a `dptr` (encoded in C++ by the
value category of the first template argument). -/
inductive Ownership where
  | borrowed
  | unique
  | shared
deriving DecidableEq

/-- Deleter classification relevant to the destruction protocol:
`disabled_deleter`, a non-destroying deleter, or a destroying deleter
(`destroying_delete == true`; the default deleters are destroying). -/
inductive DeleterKind where
  | disabled
  | nondestroying
  | destroying
deriving DecidableEq

/-- dptr<I, Is...> value: the erased pointer, the declared interface ids
(in order), the tuple of `ivtable` pointers (one per interface), and
the type-level configuration (ownership, `is_array`, deleter kind). -/
structure DPtrM where
  ptr : Option Addr
  ifaceIds : List Nat
  ivtables : List VTable
  ownership : Ownership
  isArr : Bool
  deleterKind : DeleterKind

/-- dptr constructor from a concrete-type pointer: stores the pointer
and fills every tuple entry with (an upcast of) `ptr->vtable()`
(`extract_ivtables`/`fill_ivtables` store the same vtable address in
each slot). -/
def dptr_from_ptr (a : Addr) (T : ConcreteM) (ids : List Nat)
    (own : Ownership) (arr : Bool) (dk : DeleterKind) : DPtrM :=
  { ptr := some a, ifaceIds := ids, ivtables := ids.map (fun _ => T.vt),
    ownership := own, isArr := arr, deleterKind := dk }

/-- Lookup of the stored `ivtable` pointer for a given interface
(`std::get<const ivtable<V>*>(ivtables_)` retrieves the tuple entry by
its interface type). -/
def lookup_iv (d : DPtrM) (v : Nat) : Option VTable :=
  List.lookup v (d.ifaceIds.zip d.ivtables)

/-- dptr's converting constructor from a `dptr` with a superset of the
requested interfaces: copies `ptr_` and, per requested interface, the
matching `ivtable` pointer out of the source tuple
(`copy_ivtables_to`). -/
def dptr_convert (d : DPtrM) (tgtIds : List Nat)
    (own : Ownership) (arr : Bool) (dk : DeleterKind) : DPtrM :=
  { ptr := d.ptr, ifaceIds := tgtIds,
    ivtables := tgtIds.map (fun v => (lookup_iv d v).getD vtable0),
    ownership := own, isArr := arr, deleterKind := dk }

/-- dptr::operator[]: `bind_dyn(ptr_, get<const ivtable<V>*>(ivtables_)->*mptr)`. -/
def dptr_index (d : DPtrM) (iface slot : Nat) : Option BoundSlot :=
  (lookup_iv d iface).map (fun vt => bind_dyn d.ptr (vt.islots iface slot))

/-- Events emitted by the destruction protocol: an invocation of the
primary capability table's destructor function pointer on an address
(`destroy()`), or one invocation of the deleter object. -/
inductive Ev where
  | destroyCall (dtorId : Nat) (a : Addr)
  | deleterInvoke (a : Addr)
deriving DecidableEq

/-- Dtor label of the primary (`std::get<0>`) capability table. -/
def primary_dtor (d : DPtrM) : Nat := (d.ivtables.headD vtable0).dtor

/-- Whether some `destroy_and_delete()` overload is available: both
overloads are constrained away for `disabled_deleter`, and the
non-destroying overload additionally requires `!is_array`. -/
def dad_enabled (d : DPtrM) : Bool :=
  match d.deleterKind with
  | DeleterKind.disabled => false
  | DeleterKind.nondestroying => !d.isArr
  | DeleterKind.destroying => true

/-- Whether `destroy()` is available (`requires (!is_array)`). -/
def destroy_enabled (d : DPtrM) : Bool := !d.isArr

/-- dptr::destroy_and_delete(): with a non-destroying deleter it runs
`destroy()` then invokes the deleter; with a destroying deleter it
invokes the deleter once; both overloads then null `ptr_`.  The
`disabled` case is unreachable (no overload exists) and returns the
input unchanged. -/
def destroy_and_delete (d : DPtrM) : List Ev × DPtrM :=
  match d.deleterKind with
  | DeleterKind.destroying =>
      ([Ev.deleterInvoke (d.ptr.getD 0)], { d with ptr := none })
  | DeleterKind.nondestroying =>
      ([Ev.destroyCall (primary_dtor d) (d.ptr.getD 0), Ev.deleterInvoke (d.ptr.getD 0)],
       { d with ptr := none })
  | DeleterKind.disabled => ([], d)

/-- dptr's destructor: non-borrowed pointers call
`destroy_and_delete()` iff `ptr_` is non-null; borrowed ones never do
anything. -/
def dptr_dtor_events (d : DPtrM) : List Ev :=
  if d.ownership = Ownership.borrowed then []
  else
    match d.ptr with
    | none => []
    | some _ => (destroy_and_delete d).1

/-- dptr's move constructor: memberwise copy, then
`other.quick_reset()` (nulls the source's `ptr_`).  Returns
(moved-to, moved-from-after). -/
def dptr_move_ctor (d : DPtrM) : DPtrM × DPtrM := (d, { d with ptr := none })

/-- Ownership conjunct of the `requires` clause of dptr's copy
constructor (`ownership != unique && ...`); the elided conjunct asks
for deleter copy-constructibility. -/
def dptr_copy_ctor_enabled (o : Ownership) : Bool := decide (o ≠ Ownership.unique)

/-- Ownership conjunct of the `requires` clause of dptr's copy
assignment operator (`requires ownership != unique; ...`). -/
def dptr_copy_assign_enabled (o : Ownership) : Bool := decide (o ≠ Ownership.unique)

/-- dptr::operator+ (array pointer arithmetic): result type is the
deleter rebound to `disabled_deleter` and the ownership changed to
`borrowed`; the address advances by `get<0>(ivtables_)->size * idx`
bytes and the `ivtable` tuple is copied unchanged. -/
def dptr_add (d : DPtrM) (idx : Nat) : DPtrM :=
  { ptr := d.ptr.map (fun a => a + (d.ivtables.headD vtable0).size * idx),
    ifaceIds := d.ifaceIds, ivtables := d.ivtables,
    ownership := Ownership.borrowed, isArr := d.isArr,
    deleterKind := DeleterKind.disabled }

/-- Classification of the trace events that destroy the managed object,
given the deleter contract: a destroying deleter destroys inside its
own invocation, a non-destroying one never does (the separate
`destroy()` call does). -/
def destroys_object : DeleterKind → Ev → Bool
  | DeleterKind.destroying, Ev.deleterInvoke _ => true
  | DeleterKind.nondestroying, Ev.destroyCall _ _ => true
  | _, _ => false

/-- Whether an event is an invocation of the deleter object. -/
def is_deleter_invoke : Ev → Bool
  | Ev.deleterInvoke _ => true
  | _ => false

/- §5  Shared/weak control block (`detail::shared_dptr_control_base`,
`detail::shared_dptr_deleter`, `weak_dptr`) -/

/-- Control block state: the two atomic counters plus ghost counters
recording how many times `destroy_and_delete()` and `deallocate()` have
been invoked on it. -/
structure Ctrl where
  strong : Int
  weak : Int
  destroyCount : Nat
  deallocCount : Nat
deriving DecidableEq

/-- Counter values a freshly constructed control block starts with
(`shared_count = 1, weak_count = 1`). -/
def ctrl_init : Ctrl := { strong := 1, weak := 1, destroyCount := 0, deallocCount := 0 }

/-- Default control block used for out-of-range lookups. -/
def ctrl0 : Ctrl := { strong := 0, weak := 0, destroyCount := 0, deallocCount := 0 }

/-- shared_dptr_deleter::operator() on a non-null control: decrement
`shared_count`; if it was 1, destroy-and-delete the owned object, then
decrement `weak_count`, and if that also was 1, deallocate the control
block. -/
def strong_release (c : Ctrl) : Ctrl :=
  if c.strong = 1 then
    let c' : Ctrl :=
      { c with strong := 0, destroyCount := c.destroyCount + 1, weak := c.weak - 1 }
    if c.weak = 1 then { c' with deallocCount := c'.deallocCount + 1 } else c'
  else { c with strong := c.strong - 1 }

/-- weak_dptr::record_control on a non-null control:
`weak_count.fetch_add(1, relaxed)`. -/
def weak_record (c : Ctrl) : Ctrl := { c with weak := c.weak + 1 }

/-- weak_dptr::release_control on a non-null control:
`weak_count.fetch_sub(1, acq_rel)` with NO deallocation check. -/
def weak_release_ctrl (c : Ctrl) : Ctrl := { c with weak := c.weak - 1 }

/-- weak_dptr's destructor on a non-null control: decrement
`weak_count` and deallocate if it was 1. -/
def weak_dtor_release (c : Ctrl) : Ctrl :=
  if c.weak = 1 then
    { c with weak := 0, deallocCount := c.deallocCount + 1 }
  else { c with weak := c.weak - 1 }

/-- shared_dptr_deleter::assign (copy): unconditional
`shared_count.fetch_add(1, relaxed)` on the source's non-null control. -/
def strong_incr (c : Ctrl) : Ctrl := { c with strong := c.strong + 1 }

/-- The promotion loop of `shared_dptr_deleter(control, handler)`: load
`shared_count`; while non-zero, CAS to one more.  Executed atomically
(sequential model): zero fails (the handler runs), non-zero succeeds. -/
def cas_promote (c : Ctrl) : Option Ctrl :=
  if c.strong = 0 then none else some { c with strong := c.strong + 1 }

/-- m-fold copy of a shared owner: each copy constructs its deleter via
the promotion loop with the throwing handler
(`shared_dptr_deleter(dptr, const shared_dptr_deleter&)`); `none`
models the `bad_weak_ptr` throw. -/
def iter_copies : Nat → Ctrl → Option Ctrl
  | 0, c => some c
  | k + 1, c => (iter_copies k c).bind cas_promote

/-- k-fold destruction of shared owners. -/
def iter_release : Nat → Ctrl → Ctrl
  | 0, c => c
  | k + 1, c => strong_release (iter_release k c)

/-- ext_control_dptr::use_count for a pointer holding this (non-null)
control: a relaxed load of `shared_count`. -/
def Ctrl.use_count (c : Ctrl) : Int := c.strong

/-- weak_dptr::expired: `use_count() == 0`. -/
def Ctrl.expired (c : Ctrl) : Bool := c.strong == 0

/- §6  Control-block allocation and weak_dptr::lock (world model) -/

/-- The heap of allocated control blocks; indices into the list act as
control block addresses. -/
structure World where
  ctrls : List Ctrl
deriving DecidableEq

def World.get (w : World) (i : Nat) : Ctrl := w.ctrls.getD i ctrl0

def World.update (w : World) (i : Nat) (c : Ctrl) : World := ⟨w.ctrls.set i c⟩

def World.push (w : World) (c : Ctrl) : World := ⟨w.ctrls ++ [c]⟩

/-- The allocating constructor
`shared_dptr_deleter(const DPtr&, D&&, const Alloc&)`: a null dptr
yields a null control pointer and allocates nothing; a non-null dptr
allocates a fresh control block with `shared_count = weak_count = 1`. -/
def shared_deleter_ctor (w : World) (dp : Option Addr) : Option Nat × World :=
  match dp with
  | none => (none, w)
  | some _ => (some w.ctrls.length, w.push ctrl_init)

/-- Guarded counter operations on a possibly-null control pointer: each
C++ call site checks `if (control)` first, so a null control pointer
makes every one of them a no-op. -/
def strong_release_op : Option Nat → World → World
  | none, w => w
  | some i, w => w.update i (strong_release (w.get i))

def strong_incr_op : Option Nat → World → World
  | none, w => w
  | some i, w => w.update i (strong_incr (w.get i))

def weak_record_op : Option Nat → World → World
  | none, w => w
  | some i, w => w.update i (weak_record (w.get i))

def weak_release_op : Option Nat → World → World
  | none, w => w
  | some i, w => w.update i (weak_release_ctrl (w.get i))

def weak_dtor_op : Option Nat → World → World
  | none, w => w
  | some i, w => w.update i (weak_dtor_release (w.get i))

/-- weak_dptr<Is...> value: the stored plain `dptr<Is...>` (with the
default deleter) and the control block pointer. -/
structure WeakM where
  dp : Option Addr
  control : Option Nat
deriving DecidableEq

/-- Result of constructing a shared_dptr: stored pointer and control. -/
structure SharedM where
  dp : Option Addr
  control : Option Nat
deriving DecidableEq

/-- ext_control_dptr::use_count via a possibly-null control pointer. -/
def weak_use_count (w : WeakM) (world : World) : Int :=
  match w.control with
  | none => 0
  | some i => (world.get i).strong

/-- weak_dptr::expired. -/
def weak_expired (w : WeakM) (world : World) : Bool := weak_use_count w world == 0

/-- weak_dptr::lock():
`expired() ? shared_dptr<Vs...>() : shared_dptr<Vs...>(dptr_)`.
The non-expired branch passes the stored plain `dptr<Is...>` to
shared_dptr's inherited converting constructor, whose
`shared_dptr_deleter` member is built by the ALLOCATING constructor
from `(dptr_, default deleter copy)` - not by the promotion loop. -/
def weak_lock (w : WeakM) (world : World) : SharedM × World :=
  if weak_expired w world then (⟨none, none⟩, world)
  else
    let r := shared_deleter_ctor world w.dp
    (⟨w.dp, r.1⟩, r.2)

/-- The throwing promotion form
`shared_dptr(const weak_dptr&)` -> `shared_dptr_deleter(dptr, control)`
-> promotion loop with handler `throw std::bad_weak_ptr()`; `none`
models the throw. -/
def shared_from_weak (w : WeakM) (world : World) : Option (SharedM × World) :=
  match w.control with
  | none => none
  | some i =>
      match cas_promote (world.get i) with
      | none => none
      | some c => some (⟨w.dp, some i⟩, world.update i c)

/- §7  Compile-time conversion constraints (dptr's converting
constructor, detail::superset_of) -/

/-- Deleter types occurring as the deleter parameter of a `dptr` type:
the default (array-)deleters, `disabled_deleter`, user deleters
(distinguished by an id), and `detail::shared_dptr_deleter`. -/
inductive DeleterTy where
  | defaultD
  | defaultArrD
  | disabledD
  | customD (id : Nat)
  | sharedD
deriving DecidableEq

/-- Whether `deleter_type` of the target is constructible from
`(const dptr&, source deleter)`.  `deleter_wrap` forwards to the
wrapped type's constructors (so only the same wrapped type works,
via the slicing copy), while `shared_dptr_deleter` accepts any deleter
(by allocating a control block) and shares on copy from another
`shared_dptr_deleter`. -/
def deleter_constructible (tgt src : DeleterTy) : Bool :=
  match tgt with
  | DeleterTy.sharedD => true
  | _ => decide (tgt = src)

/-- Model of a `dptr` instantiation as far as the converting
constructor's `requires` clause can see it: ownership category,
requested interface ids, cv-qualification of `base_type`, and the
deleter type.  Interfaces are modelled as unrelated class types, so
pointer-interconvertibility between two interfaces is type identity. -/
structure DptrTy where
  ownership : Ownership
  ifaceIds : List Nat
  constBase : Bool
  volBase : Bool
  deleter : DeleterTy
deriving DecidableEq

/-- detail::superset_of<SrcIs, TgtVs>: for every target interface `V`,
some source interface pointer converts to `V*` - with unrelated
interface types, exactly list membership. -/
def superset_of (src tgt : List Nat) : Bool :=
  tgt.all (fun v => src.contains v)

/-- std::is_convertible_v<src base_type, tgt base_type> for the
cv-qualified `void*` base types: qualifiers may only be added. -/
def base_convertible (a b : DptrTy) : Bool :=
  (!a.constBase || b.constBase) && (!a.volBase || b.volBase)

/-- How the source expression binds to the constructor's forwarding
reference `T&&`: as a (const) lvalue, or as a (const) rvalue. -/
inductive BindCat where
  | lval
  | clval
  | rval
  | crval
deriving DecidableEq

/-- std::is_lvalue_reference_v<T> under the deduction of `T&&`. -/
def bind_is_lvalue_ref : BindCat → Bool
  | BindCat.lval => true
  | BindCat.clval => true
  | _ => false

/-- std::is_const_v<T> under the deduction of `T&&` (references are
never const-qualified, so only a const rvalue makes `T` const). -/
def bind_is_const : BindCat → Bool
  | BindCat.crval => true
  | _ => false

/-- The `requires` clause of dptr's converting constructor
`dptr(T&& other)` (src/dynamic.hpp lines 508-522): source-ownership /
value-category restrictions, `detail::superset_of`, base-pointer
convertibility, and constructibility of the deleter from the source's
(forwarded) deleter. -/
def dptr_conv_ctor_viable (a b : DptrTy) (cat : BindCat) : Bool :=
  (decide (a.ownership ≠ Ownership.unique) || !bind_is_lvalue_ref cat) &&
  (decide (a.ownership = Ownership.borrowed) || !bind_is_const cat) &&
  superset_of a.ifaceIds b.ifaceIds &&
  base_convertible a b &&
  deleter_constructible b.deleter a.deleter

/-- Whether a value of dptr type `A` is convertible to dptr type `B`:
a value can always be bound as a non-const rvalue, which is the least
constrained form. -/
def dptr_value_convertible (a b : DptrTy) : Bool :=
  dptr_conv_ctor_viable a b BindCat.rval

/-- Concrete source type for the conversion counterexample: a borrowed
dptr over interface 0 with a user-supplied deleter. -/
def convCexA : DptrTy :=
  { ownership := Ownership.borrowed, ifaceIds := [0],
    constBase := false, volBase := false, deleter := DeleterTy.customD 1 }

/-- Concrete target type for the conversion counterexample: same
interface list and base type, default deleter. -/
def convCexB : DptrTy :=
  { ownership := Ownership.borrowed, ifaceIds := [0],
    constBase := false, volBase := false, deleter := DeleterTy.defaultD }

/- §8  Concrete instances used as witnesses and counterexamples -/

/-- Control block counters after `N` shared owners have been created
and no observer or release has happened yet. -/
def ctrl_owners (N : Nat) : Ctrl :=
  { strong := (N : Int), weak := 1, destroyCount := 0, deallocCount := 0 }

/-- Small composite table: interface 0 carries a non-static method
(slot 0), every other entry is a static method. -/
def vtW : VTable :=
  { islots := fun i _ =>
      if i = 0 then DynSlot.nonstaticM (fun a x => a + x)
      else DynSlot.staticM (fun x => 2 * x),
    dtor := 7, size := 4, arrDeleter := 8 }

/-- Concrete implementer of interfaces 0 and 1 with table `vtW`. -/
def TW : ConcreteM := { ifaceIds := [0, 1], vt := vtW }

/-- Environment in which every address holds a `TW` object. -/
def envW : FptrEnv := fun _ => some TW.vt

/-- Non-null unique dptr with the (destroying) default deleter. -/
def dW : DPtrM :=
  { ptr := some 5, ifaceIds := [0], ivtables := [vtW],
    ownership := Ownership.unique, isArr := false,
    deleterKind := DeleterKind.destroying }

/-- Non-null unique array dptr (element size 4 recorded in `vtW`). -/
def dArrW : DPtrM :=
  { ptr := some 100, ifaceIds := [0], ivtables := [vtW],
    ownership := Ownership.unique, isArr := true,
    deleterKind := DeleterKind.destroying }

/-- Null shared-ownership dptr. -/
def dNullW : DPtrM :=
  { ptr := none, ifaceIds := [], ivtables := [],
    ownership := Ownership.shared, isArr := false,
    deleterKind := DeleterKind.destroying }

/-- World holding a single control block. -/
def worldW : World := ⟨[ctrl_init]⟩

/-- Weak pointer observing control block 0 with stored pointer 100. -/
def lockWeakCex : WeakM := { dp := some 100, control := some 0 }

/-- World for the lock scenario: one shared owner plus one weak
observer of control block 0. -/
def lockWorldCex : World :=
  ⟨[{ strong := 1, weak := 2, destroyCount := 0, deallocCount := 0 }]⟩

/-- World in which control block 0 is expired (last owner gone, the
weak observer still alive). -/
def lockExpiredWorldCex : World :=
  ⟨[{ strong := 0, weak := 1, destroyCount := 1, deallocCount := 0 }]⟩

/- §9  Helper lemmas -/

theorem lookup_zip_map (v : Nat) (l : List Nat) (g : Nat → VTable) :
    List.lookup v (l.zip (l.map g)) = if v ∈ l then some (g v) else none := by
  induction l with
  | nil => simp
  | cons a t ih =>
      by_cases h : v = a
      · subst h
        simp [List.lookup]
      · simp only [List.map_cons, List.zip_cons_cons, List.lookup_cons, List.mem_cons]
        have hba : (v == a) = false := by simp [h]
        simp [hba, h, ih]

/- §10  Claim theorems -/

/-- C1: For every concrete type T implementing interfaces {I1,...,In}
and every non-null instance t of T, a Fat Pointer or Dynamic Pointer
constructed from the address of t and indexed by a method-slot of any
implemented interface invokes T's bound implementation of that slot
(with the object address pre-supplied as first argument for non-static
slots), even when the pointer's static type is a base or
interface-only view of T. -/
theorem dyn_dispatch_bound_impl
    (a : Addr) (T : ConcreteM) (ids tgtIds : List Nat) (v s : Nat)
    (own own2 : Ownership) (arr arr2 : Bool) (dk dk2 : DeleterKind)
    (himpl : ∀ i ∈ ids, i ∈ T.ifaceIds)
    (hsub : ∀ i ∈ tgtIds, i ∈ ids) (hv : v ∈ tgtIds) :
    dptr_index (dptr_from_ptr a T ids own arr dk) v s
        = some (bind_dyn (some a) (T.vt.islots v s)) ∧
    dptr_index (dptr_convert (dptr_from_ptr a T ids own arr dk) tgtIds own2 arr2 dk2) v s
        = some (bind_dyn (some a) (T.vt.islots v s)) ∧
    fptr_index (fptr_convert (fptr_of a T)) v s
        = some (bind_dyn (some a) (T.vt.islots v s)) ∧
    (∀ f x, T.vt.islots v s = DynSlot.nonstaticM f →
        BoundSlot.call (bind_dyn (some a) (T.vt.islots v s)) x = some (f a x)) ∧
    (∀ f x, T.vt.islots v s = DynSlot.staticM f →
        BoundSlot.call (bind_dyn (some a) (T.vt.islots v s)) x = some (f x)) := by
  have hvids : v ∈ ids := hsub v hv
  have h1 : lookup_iv (dptr_from_ptr a T ids own arr dk) v = some T.vt := by
    show List.lookup v (ids.zip (ids.map (fun _ => T.vt))) = some T.vt
    rw [lookup_zip_map, if_pos hvids]
  have h2 : lookup_iv (dptr_convert (dptr_from_ptr a T ids own arr dk) tgtIds own2 arr2 dk2) v
      = some T.vt := by
    show List.lookup v (tgtIds.zip (tgtIds.map
        (fun w => (lookup_iv (dptr_from_ptr a T ids own arr dk) w).getD vtable0)))
      = some T.vt
    rw [lookup_zip_map, if_pos hv, h1]
    rfl
  refine ⟨?_, ?_, ?_, ?_, ?_⟩
  · show (lookup_iv (dptr_from_ptr a T ids own arr dk) v).map
        (fun vt => bind_dyn (some a) (vt.islots v s)) = _
    rw [h1]
    rfl
  · show (lookup_iv (dptr_convert (dptr_from_ptr a T ids own arr dk) tgtIds own2 arr2 dk2) v).map
        (fun vt => bind_dyn (some a) (vt.islots v s)) = _
    rw [h2]
    rfl
  · rfl
  · intro f x hf
    rw [hf]
    rfl
  · intro f x hf
    rw [hf]
    rfl

/-- Witness for C1 at a concrete implementer, address, and
interface-narrowed view. -/
theorem dyn_dispatch_bound_impl_witness :
    (∀ i ∈ [0, 1], i ∈ TW.ifaceIds) ∧ (∀ i ∈ [0], i ∈ [0, 1]) ∧ 0 ∈ [0] ∧
    dptr_index (dptr_from_ptr 7 TW [0, 1] Ownership.borrowed false DeleterKind.destroying) 0 0
      = some (bind_dyn (some 7) (TW.vt.islots 0 0)) :=
  ⟨by decide, by decide, by decide,
    (dyn_dispatch_bound_impl 7 TW [0, 1] [0] 0 0
      Ownership.borrowed Ownership.borrowed false false
      DeleterKind.destroying DeleterKind.destroying
      (by decide) (by decide) (by decide)).1⟩

/-- C2: weak_dptr::lock() on an expired weak pointer returns an empty
shared_dptr, and the throwing promotion form raises exactly when
expired - both as claimed - but on a NON-expired weak pointer lock()
does not share the weak pointer's control block: it allocates a fresh
control block (strong count 1) via the allocating deleter constructor,
leaving the original strong count unchanged, so the claimed
compare-exchange promotion never happens on the lock() path.
Evaluated at the failing input: one live owner (strong=1) observed by
one weak pointer. -/
theorem weak_lock_allocates_fresh_control :
    weak_expired lockWeakCex lockWorldCex = false ∧
    lockWeakCex.control = some 0 ∧
    (weak_lock lockWeakCex lockWorldCex).1.control = some 1 ∧
    ((weak_lock lockWeakCex lockWorldCex).2.get 0).strong = 1 ∧
    ((weak_lock lockWeakCex lockWorldCex).2.get 1).strong = 1 ∧
    (weak_lock lockWeakCex lockWorldCex).2.ctrls.length = 2 ∧
    (weak_lock lockWeakCex lockExpiredWorldCex).1 = ⟨none, none⟩ ∧
    shared_from_weak lockWeakCex lockWorldCex
      = some (⟨some 100, some 0⟩,
          ⟨[{ strong := 2, weak := 2, destroyCount := 0, deallocCount := 0 }]⟩) ∧
    shared_from_weak lockWeakCex lockExpiredWorldCex = none := by
  decide

/-- C3: a control block is created with strong=1, weak=1, and
destroy-and-delete runs exactly at the strong 1 -> 0 transition, but
the weak count CAN reach zero without the control block ever being
deallocated: weak_dptr::reset() releases via release_control, which
decrements weak_count with no deallocation check.  Trace evaluated:
create (1,1) -> attach weak observer (1,2) -> last owner released
(0,1, object destroyed) -> weak reset (0,0) - and deallocate was never
invoked. -/
theorem weak_reset_skips_deallocation :
    ctrl_init.strong = 1 ∧ ctrl_init.weak = 1 ∧
    (strong_release (weak_record ctrl_init)).destroyCount = 1 ∧
    (weak_release_ctrl (strong_release (weak_record ctrl_init))).weak = 0 ∧
    (weak_release_ctrl (strong_release (weak_record ctrl_init))).destroyCount = 1 ∧
    (weak_release_ctrl (strong_release (weak_record ctrl_init))).deallocCount = 0 := by
  decide

/- Helper lemmas for C4: closed forms of the copy and release
iterations. -/

theorem iter_copies_init (k : Nat) :
    iter_copies k ctrl_init
      = some { strong := (k : Int) + 1, weak := 1, destroyCount := 0, deallocCount := 0 } := by
  induction k with
  | zero => rfl
  | succ k ih =>
      have hne : ¬((k : Int) + 1 = 0) := by omega
      simp only [iter_copies, ih, Option.some_bind, cas_promote, hne, if_false]
      norm_num

theorem iter_release_lt (N k : Nat) (hk : k < N) :
    iter_release k { strong := (N : Int), weak := 2, destroyCount := 0, deallocCount := 0 }
      = { strong := (N : Int) - k, weak := 2, destroyCount := 0, deallocCount := 0 } := by
  induction k with
  | zero => simp [iter_release]
  | succ k ih =>
      have hk' : k < N := by omega
      have h1 : ¬((N : Int) - k = 1) := by omega
      simp only [iter_release, ih hk', strong_release, h1, if_false]
      norm_num
      ring

theorem iter_release_last (N : Nat) (hN : 1 ≤ N) :
    iter_release N { strong := (N : Int), weak := 2, destroyCount := 0, deallocCount := 0 }
      = { strong := 0, weak := 1, destroyCount := 1, deallocCount := 0 } := by
  cases N with
  | zero => omega
  | succ M =>
      have hlt : M < M + 1 := by omega
      have hM : ((M + 1 : Nat) : Int) - M = 1 := by push_cast; ring
      simp only [iter_release, iter_release_lt (M + 1) M hlt, hM, strong_release]
      norm_num

/-- C4: for a non-empty shared pointer group of N owners (the original
plus N-1 CAS-incrementing copies) the use_count is N; releasing owners
triggers no destructor call until the last one, which triggers exactly
one; and with a weak observer attached, expired() holds exactly from
the point of that destructor call on, never before. -/
theorem shared_use_count_and_expiry (N k : Nat) (hN : 1 ≤ N) (hk : k ≤ N) :
    iter_copies (N - 1) ctrl_init = some (ctrl_owners N) ∧
    (ctrl_owners N).use_count = (N : Int) ∧
    (k < N → (iter_release k (weak_record (ctrl_owners N))).destroyCount = 0 ∧
      (iter_release k (weak_record (ctrl_owners N))).expired = false) ∧
    (k = N → (iter_release k (weak_record (ctrl_owners N))).destroyCount = 1 ∧
      (iter_release k (weak_record (ctrl_owners N))).expired = true) ∧
    ((iter_release k (weak_record (ctrl_owners N))).expired = true ↔
      1 ≤ (iter_release k (weak_record (ctrl_owners N))).destroyCount) := by
  have hrec : weak_record (ctrl_owners N)
      = { strong := (N : Int), weak := 2, destroyCount := 0, deallocCount := 0 } := rfl
  have hcast : ((N - 1 : Nat) : Int) + 1 = (N : Int) := by omega
  refine ⟨?_, rfl, ?_, ?_, ?_⟩
  · rw [iter_copies_init, ctrl_owners, hcast]
  · intro hlt
    rw [hrec, iter_release_lt N k hlt]
    constructor
    · rfl
    · simp [Ctrl.expired]
      omega
  · intro heq
    subst heq
    rw [hrec, iter_release_last k hN]
    constructor
    · rfl
    · simp [Ctrl.expired]
  · rw [hrec]
    rcases Nat.lt_or_ge k N with hlt | hge
    · rw [iter_release_lt N k hlt]
      simp [Ctrl.expired]
      omega
    · have heq : k = N := by omega
      subst heq
      rw [iter_release_last k hN]
      simp [Ctrl.expired]

/-- Witness for C4 with two owners, releasing both. -/
theorem shared_use_count_and_expiry_witness :
    1 ≤ 2 ∧ 2 ≤ 2 ∧ iter_copies 1 ctrl_init = some (ctrl_owners 2) :=
  ⟨by decide, by decide,
    (shared_use_count_and_expiry 2 2 (by decide) (by decide)).1⟩

/-- C5 counterexample: two borrowed dptr types over the same interface
list and base type (so the claimed subset and base conditions hold),
but with a user deleter on the source and the default deleter on the
target: the converting constructor is rejected because the target
deleter is not constructible from the source deleter, refuting the
claimed if-and-only-if. -/
theorem conversion_subset_counterexample :
    (∀ i ∈ convCexB.ifaceIds, i ∈ convCexA.ifaceIds) ∧
    base_convertible convCexA convCexB = true ∧
    dptr_value_convertible convCexA convCexB = false := by
  decide

/-- C5 (amended): a value of dptr type A is convertible to dptr type B
iff B's interface list is a subset of A's, A's base pointer type
converts to B's, AND B's deleter is constructible from A's; in
particular a conversion whose target adds interfaces is always
rejected. -/
theorem conversion_viability_characterization (a b : DptrTy) :
    dptr_value_convertible a b = true ↔
      ((∀ i ∈ b.ifaceIds, i ∈ a.ifaceIds) ∧ base_convertible a b = true ∧
       deleter_constructible b.deleter a.deleter = true) := by
  simp [dptr_value_convertible, dptr_conv_ctor_viable, bind_is_lvalue_ref, bind_is_const,
    superset_of, List.all_eq_true, and_assoc]

/-- Witness for C5 at a concrete type pair. -/
theorem conversion_viability_characterization_witness :
    dptr_value_convertible convCexB convCexB = true :=
  (conversion_viability_characterization convCexB convCexB).mpr
    ⟨by decide, by decide, by decide⟩

/-- C6: moving from a non-null unique dptr nulls the source; over the
combined destructor runs of the moved-to and moved-from pointers the
owned object is destroyed exactly once, by the moved-to pointer and
never by the moved-from one; and the copy constructor and copy
assignment are disabled at compile time for unique ownership. -/
theorem unique_move_transfer (d : DPtrM) (a : Addr)
    (hown : d.ownership = Ownership.unique) (hp : d.ptr = some a)
    (hen : dad_enabled d = true) :
    (dptr_move_ctor d).2.ptr = none ∧
    (dptr_move_ctor d).1.ptr = some a ∧
    dptr_dtor_events (dptr_move_ctor d).2 = [] ∧
    List.countP (destroys_object d.deleterKind)
        (dptr_dtor_events (dptr_move_ctor d).1 ++ dptr_dtor_events (dptr_move_ctor d).2) = 1 ∧
    dptr_copy_ctor_enabled Ownership.unique = false ∧
    dptr_copy_assign_enabled Ownership.unique = false := by
  have hnb : ¬(d.ownership = Ownership.borrowed) := by rw [hown]; intro h; cases h
  refine ⟨rfl, hp, ?_, ?_, by decide, by decide⟩
  · simp [dptr_dtor_events, dptr_move_ctor, hnb]
  · cases hdk : d.deleterKind with
    | disabled => rw [dad_enabled, hdk] at hen; cases hen
    | nondestroying =>
        simp [dptr_dtor_events, dptr_move_ctor, hnb, hp, destroy_and_delete, hdk,
          destroys_object, List.countP_cons]
    | destroying =>
        simp [dptr_dtor_events, dptr_move_ctor, hnb, hp, destroy_and_delete, hdk,
          destroys_object, List.countP_cons]

/-- Witness for C6 at a concrete non-null unique dptr. -/
theorem unique_move_transfer_witness :
    dW.ownership = Ownership.unique ∧ dW.ptr = some 5 ∧ dad_enabled dW = true ∧
    (dptr_move_ctor dW).2.ptr = none :=
  ⟨rfl, rfl, rfl, (unique_move_transfer dW 5 rfl rfl rfl).1⟩

/-- C7: on a non-null dptr whose deleter is not disabled,
destroy_and_delete() with a non-destroying deleter first invokes the
primary vtable destructor on the raw address (destroy()) and then the
deleter; with a destroying deleter it invokes the deleter exactly
once; in both cases the stored pointer is nulled afterwards and the
deleter is invoked exactly once. -/
theorem destroy_and_delete_protocol (d : DPtrM) (a : Addr)
    (hp : d.ptr = some a) (hen : dad_enabled d = true) :
    (d.deleterKind = DeleterKind.nondestroying →
      (destroy_and_delete d).1 = [Ev.destroyCall (primary_dtor d) a, Ev.deleterInvoke a]) ∧
    (d.deleterKind = DeleterKind.destroying →
      (destroy_and_delete d).1 = [Ev.deleterInvoke a]) ∧
    (destroy_and_delete d).2.ptr = none ∧
    List.countP is_deleter_invoke (destroy_and_delete d).1 = 1 := by
  cases hdk : d.deleterKind with
  | disabled => rw [dad_enabled, hdk] at hen; cases hen
  | nondestroying =>
      refine ⟨fun _ => ?_, fun h => absurd h (by decide), ?_, ?_⟩ <;>
        simp [destroy_and_delete, hdk, hp, is_deleter_invoke, List.countP_cons]
  | destroying =>
      refine ⟨fun h => absurd h (by decide), fun _ => ?_, ?_, ?_⟩ <;>
        simp [destroy_and_delete, hdk, hp, is_deleter_invoke, List.countP_cons]

/-- Witness for C7 at a concrete dptr with the destroying default
deleter. -/
theorem destroy_and_delete_protocol_witness :
    dW.ptr = some 5 ∧ dad_enabled dW = true ∧ dW.deleterKind = DeleterKind.destroying ∧
    (destroy_and_delete dW).1 = [Ev.deleterInvoke 5] :=
  ⟨rfl, rfl, rfl, (destroy_and_delete_protocol dW 5 rfl rfl).2.1 rfl⟩

/-- C8: for an array dptr whose first capability table records element
size S, adding an in-range index i yields a pointer at the base
address plus i*S, carrying the same capability-table pointers, with
borrowed ownership and both destruction paths disabled
(disabled_deleter, and destroy() unavailable). -/
theorem array_index_address (d : DPtrM) (a S idx M : Nat)
    (hp : d.ptr = some a) (harr : d.isArr = true)
    (hS : (d.ivtables.headD vtable0).size = S) (hi : idx < M) :
    (dptr_add d idx).ptr = some (a + idx * S) ∧
    (dptr_add d idx).ownership = Ownership.borrowed ∧
    (dptr_add d idx).deleterKind = DeleterKind.disabled ∧
    (dptr_add d idx).ivtables = d.ivtables ∧
    (dptr_add d idx).ifaceIds = d.ifaceIds ∧
    dad_enabled (dptr_add d idx) = false ∧
    destroy_enabled (dptr_add d idx) = false := by
  refine ⟨?_, rfl, rfl, rfl, rfl, rfl, ?_⟩
  · simp only [dptr_add, hp]
    rw [hS, Nat.mul_comm]
    rfl
  · simp [destroy_enabled, dptr_add, harr]

/-- Witness for C8 at a concrete array dptr (element size 4, index 3 of
a 5-element array). -/
theorem array_index_address_witness :
    dArrW.ptr = some 100 ∧ dArrW.isArr = true ∧
    (dArrW.ivtables.headD vtable0).size = 4 ∧ (3 : Nat) < 5 ∧
    (dptr_add dArrW 3).ptr = some (100 + 3 * 4) :=
  ⟨rfl, rfl, rfl, by decide,
    (array_index_address dArrW 100 4 3 5 rfl rfl rfl (by decide)).1⟩

/-- C9 counterexample: the defaulted default constructor of fptr leaves
both members uninitialized, so a default-constructed fptr need not
satisfy the both-null-or-both-non-null invariant; exhibited with the
junk values obj = some 0, vtable = none. -/
theorem fptr_default_ctor_counterexample :
    ¬ fptr_inv (fun _ => none) (fptr_default (some 0) none) := by
  simp [fptr_inv, fptr_default]

/-- C9 (amended): every public fptr constructor other than the default
one establishes the invariant: the nullptr constructor yields the
both-null state, implements::operator& yields the matching non-null
pair, and the converting copy constructor preserves the invariant;
the default constructor leaves the members indeterminate, so the
both-null case is guaranteed by the nullptr constructor, not by
default construction. -/
theorem fptr_ctor_invariants (env : FptrEnv) (a : Addr) (T : ConcreteM) (f : FptrM)
    (henv : env a = some T.vt) (hf : fptr_inv env f) :
    fptr_inv env fptr_null ∧ fptr_inv env (fptr_of a T) ∧ fptr_inv env (fptr_convert f) := by
  refine ⟨Or.inl ⟨rfl, rfl⟩, Or.inr ⟨a, T.vt, rfl, rfl, henv⟩, ?_⟩
  rcases hf with ⟨h1, h2⟩ | ⟨b, t, h1, h2, h3⟩
  · exact Or.inl ⟨by simp [fptr_convert, h1], by simp [fptr_convert, h2]⟩
  · exact Or.inr ⟨b, t, by simp [fptr_convert, h1], by simp [fptr_convert, h2], h3⟩

/-- Witness for C9 at a concrete environment and implementer. -/
theorem fptr_ctor_invariants_witness :
    envW 5 = some TW.vt ∧ fptr_inv envW (fptr_of 5 TW) :=
  ⟨rfl, (fptr_ctor_invariants envW 5 TW fptr_null rfl (Or.inl ⟨rfl, rfl⟩)).2.1⟩

/-- C10: destroying an owning dptr whose stored pointer is null emits
no destruction or deleter action; the shared-ownership deleter
constructed from a null dptr has a null control pointer and allocates
no control block; and every subsequent counter operation through a
null control pointer is a no-op. -/
theorem null_pointer_destruction_safe (d : DPtrM) (w : World) (hp : d.ptr = none) :
    dptr_dtor_events d = [] ∧
    (shared_deleter_ctor w none).1 = none ∧
    (shared_deleter_ctor w none).2 = w ∧
    strong_release_op none w = w ∧
    strong_incr_op none w = w ∧
    weak_record_op none w = w ∧
    weak_release_op none w = w ∧
    weak_dtor_op none w = w := by
  refine ⟨?_, rfl, rfl, rfl, rfl, rfl, rfl, rfl⟩
  by_cases h : d.ownership = Ownership.borrowed <;> simp [dptr_dtor_events, hp, h]

/-- Witness for C10 at a concrete null shared dptr. -/
theorem null_pointer_destruction_safe_witness :
    dNullW.ptr = none ∧ dptr_dtor_events dNullW = [] :=
  ⟨rfl, (null_pointer_destruction_safe dNullW worldW rfl).1⟩
